import Mathlib

/-!
Verification of the quiz-attempt grading and scoring engine of the
quiz-app backend (Express + Mongoose).  The JavaScript source is embedded
shallowly: Mongoose documents become Lean structures, the grading loop of
submitQuizAttempt becomes a recursive function, JavaScript primitive
values become the inductive type JSVal, and the float results of
division are modelled as Option of rationals, where none stands for a
non-finite number (NaN or an infinity).
-/

namespace QuizApp

/-- Model of a JavaScript primitive value as it can appear in a request
body or in a Mixed schema path: integer number, string, boolean,
null, undefined, or NaN. -/
inductive JSVal where
  | num (n : Int)
  | str (s : String)
  | bool (b : Bool)
  | null
  | undef
  | nan
deriving DecidableEq, Repr

/-- JavaScript ToString on a primitive value, as invoked implicitly by
parseInt and by the explicit toString calls in the grading code. -/
def jsToString : JSVal → String
  | .num n => toString n
  | .str s => s
  | .bool b => if b then "true" else "false"
  | .null => "null"
  | .undef => "undefined"
  | .nan => "NaN"

/-- Truthiness of a JavaScript primitive value: null, undefined, false,
0, NaN and the empty string are falsy. -/
def jsFalsy : JSVal → Bool
  | .num n => n == 0
  | .str s => s == ""
  | .bool b => !b
  | .null => true
  | .undef => true
  | .nan => true

/-- Value of a hexadecimal digit, used by the 0x branch of parseInt. -/
def hexDigitVal (c : Char) : Option Nat :=
  if c.isDigit then some (c.toNat - 48)
  else if 'a' ≤ c ∧ c ≤ 'f' then some (c.toNat - 87)
  else if 'A' ≤ c ∧ c ≤ 'F' then some (c.toNat - 55)
  else none

/-- Numeric value of a list of decimal digit characters. -/
def decDigitsVal (l : List Char) : Nat :=
  l.foldl (fun a c => a * 10 + (c.toNat - 48)) 0

/-- Numeric value of a list of hexadecimal digit characters. -/
def hexDigitsVal (l : List Char) : Nat :=
  l.foldl (fun a c => a * 16 + ((hexDigitVal c).getD 0)) 0

/-- The longest decimal digit prefix of a character list, with the rule
that an empty prefix means NaN. -/
def parseDecPrefix (l : List Char) : Option Nat :=
  let ds := l.takeWhile Char.isDigit
  if ds.isEmpty then none else some (decDigitsVal ds)

/-- JavaScript parseInt with an unspecified radix: skip leading
whitespace, read an optional sign, honour a 0x or 0X prefix as
hexadecimal, then read the longest digit prefix; no digits means NaN,
modelled as none. -/
def jsParseInt (s : String) : Option Int :=
  let l := s.data.dropWhile Char.isWhitespace
  let sg : Int := match l with
    | '-' :: _ => -1
    | _ => 1
  let l2 : List Char := match l with
    | '-' :: r => r
    | '+' :: r => r
    | _ => l
  match l2 with
  | '0' :: c :: r =>
    if c = 'x' ∨ c = 'X' then
      let ds := r.takeWhile (fun ch => (hexDigitVal ch).isSome)
      if ds.isEmpty then none else some (sg * hexDigitsVal ds)
    else
      (parseDecPrefix l2).map (fun n => sg * n)
  | _ => (parseDecPrefix l2).map (fun n => sg * n)

/-- JavaScript parseInt with explicit radix 10, as called in the quiz
pre-save hook: same as jsParseInt but with no hexadecimal prefix
handling. -/
def jsParseIntBase10 (s : String) : Option Int :=
  let l := s.data.dropWhile Char.isWhitespace
  let sg : Int := match l with
    | '-' :: _ => -1
    | _ => 1
  let l2 : List Char := match l with
    | '-' :: r => r
    | '+' :: r => r
    | _ => l
  (parseDecPrefix l2).map (fun n => sg * n)

/-- Removal of leading and trailing whitespace from a character list,
the model of the JavaScript String trim method. -/
def jsTrim (l : List Char) : List Char :=
  ((l.dropWhile Char.isWhitespace).reverse.dropWhile Char.isWhitespace).reverse

/-- The normalization the Fill grading branch applies to both sides
before comparing: toString, toLowerCase, trim.  The result is kept as a
character list. -/
def jsNormalize (s : String) : List Char :=
  jsTrim (s.data.map Char.toLower)

/-- JavaScript Math.round on a finite number: round half toward
positive infinity. -/
def jsRound (x : ℚ) : ℤ := ⌊x + 1 / 2⌋

/-- JavaScript division where a zero divisor produces a non-finite
number (NaN for 0 divided by 0, a signed infinity otherwise), modelled
as none. -/
def jsDiv (a b : ℚ) : Option ℚ :=
  if b = 0 then none else some (a / b)

/-- A question subdocument of the Quiz schema: type is the open string
tag stored in the document (the schema enum admits MCQ and Fill),
options is absent or a string list, correctAnswer is a Mixed path, and
marks is absent or a number.  The id is the string form of the
subdocument ObjectId. -/
structure Question where
  _id : String
  type : String
  questionText : String
  options : Option (List String)
  correctAnswer : JSVal
  marks : Option Int
deriving DecidableEq, Repr

/-- One entry of the responses array of a submission request body. -/
structure SubmittedResponse where
  questionId : String
  selectedAnswer : JSVal
deriving DecidableEq, Repr

/-- One entry of the processed response list built by
submitQuizAttempt. -/
structure GradedResponse where
  questionId : String
  selectedAnswer : JSVal
  isCorrect : Bool
  questionType : String
  correctAnswer : JSVal
deriving DecidableEq, Repr

/-- The MCQ branch of the grading switch:
parseInt(question.correctAnswer) === parseInt(userAnswer), with NaN
never equal to anything. -/
def mcqCorrect (ca ua : JSVal) : Bool :=
  match jsParseInt (jsToString ca), jsParseInt (jsToString ua) with
  | some a, some b => a == b
  | _, _ => false

/-- The Fill branch of the grading switch: a falsy stored answer or a
null or undefined submitted answer is incorrect; otherwise both sides
are stringified, lowercased and trimmed and compared for equality. -/
def fillCorrect (ca ua : JSVal) : Bool :=
  if jsFalsy ca || ua == JSVal.null || ua == JSVal.undef then false
  else jsNormalize (jsToString ca) == jsNormalize (jsToString ua)

/-- Correctness of a submitted answer for a question, following the
switch on question.type in submitQuizAttempt; the default branch marks
any unknown type incorrect. -/
def isCorrectAnswer (q : Question) (ua : JSVal) : Bool :=
  if q.type = "MCQ" then mcqCorrect q.correctAnswer ua
  else if q.type = "Fill" then fillCorrect q.correctAnswer ua
  else false

/-- The per-question marks as the grading loop and the totalMarks
computation read them: question.marks or 1, where an absent field and
the number 0 are both falsy. -/
def effMarks (q : Question) : Int :=
  match q.marks with
  | none => 1
  | some m => if m = 0 then 1 else m

/-- The response-processing loop of submitQuizAttempt: responses whose
questionId matches no question of the quiz map to null and are removed
by the final filter(Boolean); each matched response adds the question
marks to the score when correct and yields a processed entry.  The
result pairs the accumulated score with the processed list. -/
def gradeResponses (qs : List Question) : List SubmittedResponse → Int × List GradedResponse
  | [] => (0, [])
  | r :: rest =>
    let tail := gradeResponses qs rest
    match qs.find? (fun q => q._id == r.questionId) with
    | none => tail
    | some q =>
      let c := isCorrectAnswer q r.selectedAnswer
      ((if c then effMarks q else 0) + tail.1,
       { questionId := r.questionId, selectedAnswer := r.selectedAnswer,
         isCorrect := c, questionType := q.type,
         correctAnswer := q.correctAnswer } :: tail.2)

/-- quiz.questions.reduce((sum, q) => sum + (q.marks || 1), 0), the
totalMarks value of the attempt data built by submitQuizAttempt. -/
def quizTotalMarks (qs : List Question) : Int :=
  qs.foldl (fun s q => s + effMarks q) 0

/-- The percentage field of the submission response body:
Math.round((score / attemptData.totalMarks) * 100), with none standing
for the non-finite value the division yields when totalMarks is 0. -/
def submitEmittedPercentage (qs : List Question) (rs : List SubmittedResponse) : Option ℤ :=
  (jsDiv ((gradeResponses qs rs).1 : ℚ) (quizTotalMarks qs : ℚ)).map
    (fun x => jsRound (x * 100))

/-- The attempt document as submitQuizAttempt assembles it and as the
QuizAttempt schema stores it.  The schema declares user, quiz, score,
totalQuestions, percentage (default 0), responses, completedAt and
timeTaken; the attempt data additionally carries the totalMarks value
computed from the quiz, kept here so that the stored percentage can be
compared against it.  The username and quizTitle denormalizations are
filled from other collections and are not modelled. -/
structure QuizAttemptRecord where
  user : String
  quiz : String
  score : Int
  totalQuestions : Nat
  totalMarks : Int
  percentage : Int
  responses : List GradedResponse
  timeTaken : Int
deriving DecidableEq, Repr

/-- The attemptData object built by submitQuizAttempt before the
create call: score and responses from the grading loop, totalMarks as
the marks sum over all questions, totalQuestions as the question count,
and the schema default 0 for percentage. -/
def mkAttemptData (quizId userId : String) (qs : List Question)
    (rs : List SubmittedResponse) (timeTaken : Int) : QuizAttemptRecord :=
  { user := userId, quiz := quizId,
    score := (gradeResponses qs rs).1,
    totalQuestions := qs.length,
    totalMarks := quizTotalMarks qs,
    percentage := 0,
    responses := (gradeResponses qs rs).2,
    timeTaken := timeTaken }

/-- The percentage computation of the QuizAttempt pre-save hook: when
totalQuestions is positive the hook overwrites percentage with
Math.round((score / totalQuestions) * 100); otherwise the field is left
as it is. -/
def applyPreSaveHook (a : QuizAttemptRecord) : QuizAttemptRecord :=
  if 0 < a.totalQuestions then
    { a with percentage := jsRound ((a.score : ℚ) / (a.totalQuestions : ℚ) * 100) }
  else a

/-- The attempt record as it stands after QuizAttempt.create ran the
pre-save hook on the attempt data. -/
def savedAttempt (quizId userId : String) (qs : List Question)
    (rs : List SubmittedResponse) (timeTaken : Int) : QuizAttemptRecord :=
  applyPreSaveHook (mkAttemptData quizId userId qs rs timeTaken)

/-- The totalPossibleScore computation of getQuizAttemptById:
attempt.quiz.questions.reduce((sum, q) => sum + (q.marks || 0), 0),
over the current questions of the populated quiz. -/
def totalPossibleScore (qs : List Question) : Int :=
  qs.foldl (fun s q => s + q.marks.getD 0) 0

/-- The reconciliation step of getQuizAttemptById: recompute
totalPossibleScore from the current quiz questions, recompute
percentage as Math.round((score / totalPossibleScore) * 100) when
totalPossibleScore is positive and 0 otherwise, and write both onto the
attempt.  In this rational model the result of the guarded division is
always a number, so the isNaN fallback of the source never fires. -/
def reconcileAttempt (qs : List Question) (a : QuizAttemptRecord) : QuizAttemptRecord :=
  let tps := totalPossibleScore qs
  let pct : Int := if 0 < tps then jsRound ((a.score : ℚ) / (tps : ℚ) * 100) else 0
  { a with percentage := pct, totalMarks := tps }

/-- The pair a reconciliation run yields for the response body: the
recomputed percentage and the recomputed totalPossibleScore. -/
def reconcileView (qs : List Question) (a : QuizAttemptRecord) : Int × Int :=
  ((reconcileAttempt qs a).percentage, totalPossibleScore qs)

/-- A stored attempt document reduced to its identity and its two
reference paths, which are what the cascade deletions query. -/
structure AttemptDoc where
  _id : String
  user : String
  quiz : String
deriving DecidableEq, Repr

/-- The queryable top-level reference paths of an attempt document.
The QuizAttempt schema defines user and quiz; any other path is absent
from every document. -/
def attemptPath (a : AttemptDoc) (p : String) : Option String :=
  if p = "_id" then some a._id
  else if p = "user" then some a.user
  else if p = "quiz" then some a.quiz
  else none

/-- Whether a document matches an equality filter on a named path, the
semantics of a Mongoose deleteMany filter under the current default
strictQuery setting, which passes the filter through as written: a
document matches when it has the path with that value, so a filter on a
path absent from the schema matches no document. -/
def matchesEqFilter (a : AttemptDoc) (p v : String) : Bool :=
  attemptPath a p == some v

/-- deleteMany over the attempts collection with an equality filter on
a named path: every matching document is removed. -/
def deleteManyAttempts (db : List AttemptDoc) (p v : String) : List AttemptDoc :=
  db.filter (fun a => !(matchesEqFilter a p v))

/-- The database slice the deletion endpoints touch: the quizzes
collection (ids only) and the attempts collection. -/
structure QuizDB where
  quizzes : List String
  attempts : List AttemptDoc
deriving DecidableEq, Repr

/-- The quizController deleteQuiz handler on the authorized path with
the quiz present: it awaits deleteMany on the attempts with the filter
on the path quizId, then removes the quiz.  The QuizAttempt schema has
no quizId path, so the filter is over a path no document carries. -/
def deleteQuizUserCtrl (db : QuizDB) (qid : String) : QuizDB :=
  if db.quizzes.contains qid then
    { quizzes := db.quizzes.filter (fun q => !(q == qid)),
      attempts := deleteManyAttempts db.attempts "quizId" qid }
  else db

/-- The adminController deleteQuiz handler on the same path: it awaits
deleteMany on the attempts with the filter on the schema path quiz,
then removes the quiz. -/
def deleteQuizAdminCtrl (db : QuizDB) (qid : String) : QuizDB :=
  if db.quizzes.contains qid then
    { quizzes := db.quizzes.filter (fun q => !(q == qid)),
      attempts := deleteManyAttempts db.attempts "quiz" qid }
  else db

/-- The quiz fields the analytics populate step projects from the quiz
a stored attempt references. -/
structure QuizRefInfo where
  _id : String
  title : String
  subject : String
deriving DecidableEq, Repr

/-- An attempt as the analytics loop of getUserAnalytics sees it after
the populate step: quizId is the populated quiz document, or none when
the reference does not resolve, and percentage is the value computed
as score divided by the stored totalMarks times 100, non-finite (none)
when that division had a zero or absent divisor. -/
structure AnalyticsAttempt where
  quizId : Option QuizRefInfo
  score : Int
  percentage : Option ℚ
deriving DecidableEq, Repr

/-- Per-subject accumulator of getUserAnalytics: attempt count and the
running totalScore, which is a sum of percentages and is non-finite as
soon as one summand is. -/
structure SubjectPerf where
  attempts : Nat
  totalScore : Option ℚ
deriving DecidableEq, Repr

/-- Addition on possibly non-finite numbers: NaN propagates. -/
def jsAdd (a b : Option ℚ) : Option ℚ :=
  match a, b with
  | some x, some y => some (x + y)
  | _, _ => none

/-- One step of the subject grouping loop body: read
attempt.quizId.subject and bump that bucket of the accumulator. -/
def bumpSubject (acc : List (String × SubjectPerf)) (subject : String)
    (pct : Option ℚ) : List (String × SubjectPerf) :=
  match acc.find? (fun e => e.1 == subject) with
  | some _ => acc.map (fun e =>
      if e.1 == subject then
        (e.1, { attempts := e.2.attempts + 1, totalScore := jsAdd e.2.totalScore pct })
      else e)
  | none => acc ++ [(subject, { attempts := 1, totalScore := pct })]

/-- The subject grouping forEach of getUserAnalytics, walking the
attempts left to right with the accumulator of buckets: reading the
subject of attempt.quizId throws a TypeError when quizId is null or
undefined, which aborts the whole handler; the error case models that
thrown exception. -/
def subjectGroupingAux (acc : List (String × SubjectPerf)) :
    List AnalyticsAttempt → Except String (List (String × SubjectPerf))
  | [] => .ok acc
  | a :: rest =>
    match a.quizId with
    | none => .error "TypeError: cannot read subject of a missing quiz reference"
    | some qi => subjectGroupingAux (bumpSubject acc qi.subject a.percentage) rest

/-- The subject grouping of getUserAnalytics started on the empty
accumulator. -/
def subjectGrouping (l : List AnalyticsAttempt) :
    Except String (List (String × SubjectPerf)) :=
  subjectGroupingAux [] l

/-- The per-question rewrite of the Quiz schema pre-save hook.  On the
TrueFalse tag it sets options to True and False and maps a boolean or a
case-insensitive true or false string answer to index 0 or 1 — without
touching the type tag.  On Fill it clears options.  On MCQ it coerces a
non-number answer through parseInt with radix 10 and pads or trims
options to exactly four entries. -/
def fixQuestionPreSave (q : Question) : Question :=
  if q.type = "TrueFalse" then
    { q with options := some ["True", "False"],
             correctAnswer :=
               match q.correctAnswer with
               | .bool b => .num (if b then 0 else 1)
               | .str s =>
                 if s.toLower = "true" then .num 0
                 else if s.toLower = "false" then .num 1
                 else .str s
               | v => v }
  else if q.type = "Fill" then { q with options := none }
  else if q.type = "MCQ" then
    let ca := match q.correctAnswer with
      | .num n => JSVal.num n
      | .nan => JSVal.nan
      | v => match jsParseIntBase10 (jsToString v) with
             | some n => .num n
             | none => .nan
    let opts := match q.options with
      | none => ["", "", "", ""]
      | some l =>
        if l.length < 4 then l ++ List.replicate (4 - l.length) ""
        else l.take 4
    { q with correctAnswer := ca, options := some opts }
  else q

/-- The validation rules the Quiz schema imposes on a question
subdocument: the type enum admits only MCQ and Fill; MCQ requires
exactly four options and an integer answer index between 0 and 3; Fill
forbids options and requires a non-blank string answer; marks, when
present, is at least 1. -/
def validQuestion (q : Question) : Bool :=
  (q.type == "MCQ" || q.type == "Fill")
  && (if q.type == "MCQ" then
        (match q.options with
         | some l => l.length == 4
         | none => false)
        && (match q.correctAnswer with
            | .num n => 0 ≤ n && n < 4
            | _ => false)
      else
        (match q.options with
         | some l => l.isEmpty
         | none => true)
        && (match q.correctAnswer with
            | .str s => !(jsTrim s.data).isEmpty
            | _ => false))
  && (match q.marks with
      | some m => 1 ≤ m
      | none => true)

/-- A multiple-choice question with answer index 2, used to instantiate
the universally quantified grading theorems. -/
def exMcqQ : Question :=
  { _id := "q1", type := "MCQ", questionText := "pick one",
    options := some ["A", "B", "C", "D"], correctAnswer := .num 2,
    marks := some 1 }

/-- A fill-in question whose stored answer is Paris, used to
instantiate the universally quantified grading theorems. -/
def exFillQ : Question :=
  { _id := "q2", type := "Fill", questionText := "capital of France",
    options := none, correctAnswer := .str "Paris", marks := some 2 }

/-- A one-question quiz whose single question is worth 2 marks, the
input on which the stored percentage and the claimed formula
diverge. -/
def c2Quiz : List Question :=
  [{ _id := "q1", type := "MCQ", questionText := "pick one",
     options := some ["A", "B", "C", "D"], correctAnswer := .num 1,
     marks := some 2 }]

/-- A single correct response to the 2-mark question of c2Quiz. -/
def c2Resp : List SubmittedResponse :=
  [{ questionId := "q1", selectedAnswer := .num 1 }]

/-- A one-question quiz worth 1 mark in total, used to show that
duplicate responses push the score past totalMarks. -/
def c10Quiz : List Question :=
  [{ _id := "q1", type := "MCQ", questionText := "pick one",
     options := some ["A", "B", "C", "D"], correctAnswer := .num 1,
     marks := none }]

/-- The same correct response submitted twice. -/
def c10Resp : List SubmittedResponse :=
  [{ questionId := "q1", selectedAnswer := .num 1 },
   { questionId := "q1", selectedAnswer := .num 1 }]

/-- A database with one quiz and one attempt referencing it through
the schema path quiz. -/
def c3DB : QuizDB :=
  { quizzes := ["Q1"],
    attempts := [{ _id := "A1", user := "U1", quiz := "Q1" }] }

/-- A legacy true-false question as a client would submit it. -/
def c8TFQ : Question :=
  { _id := "q1", type := "TrueFalse", questionText := "sky is blue",
    options := none, correctAnswer := .bool true, marks := none }

section Helpers

variable {p : Char → Bool}

/-- dropWhile over a list whose elements all satisfy the predicate
gives the empty list. -/
theorem dropWhile_eq_nil_of_forall {l : List Char} (h : ∀ c ∈ l, p c = true) :
    l.dropWhile p = [] :=
  List.dropWhile_eq_nil_iff.mpr h

/-- dropWhile skips over a leading block whose elements all satisfy the
predicate. -/
theorem dropWhile_append_of_forall {pre l : List Char}
    (h : ∀ c ∈ pre, p c = true) :
    (pre ++ l).dropWhile p = l.dropWhile p := by
  induction pre with
  | nil => rfl
  | cons a t ih =>
    have ha : p a = true := h a (by simp)
    simp only [List.cons_append, List.dropWhile_cons, ha, if_true]
    exact ih (fun c hc => h c (by simp [hc]))

/-- Leading whitespace does not change the trimmed form. -/
theorem jsTrim_ws_front {pre l : List Char}
    (h : ∀ c ∈ pre, c.isWhitespace = true) :
    jsTrim (pre ++ l) = jsTrim l := by
  unfold jsTrim
  rw [dropWhile_append_of_forall h]

/-- Trailing whitespace does not change the trimmed form. -/
theorem jsTrim_ws_back {l post : List Char}
    (h : ∀ c ∈ post, c.isWhitespace = true) :
    jsTrim (l ++ post) = jsTrim l := by
  unfold jsTrim
  rw [List.dropWhile_append]
  by_cases he : (l.dropWhile Char.isWhitespace).isEmpty
  · simp only [he, if_true]
    rw [dropWhile_eq_nil_of_forall h]
    simp only [List.isEmpty_iff] at he
    simp [he]
  · rw [if_neg he, List.reverse_append,
        dropWhile_append_of_forall (by intro c hc; exact h c (List.mem_reverse.mp hc))]

/-- Surrounding whitespace does not change the trimmed form. -/
theorem jsTrim_ws_both {pre l post : List Char}
    (hpre : ∀ c ∈ pre, c.isWhitespace = true)
    (hpost : ∀ c ∈ post, c.isWhitespace = true) :
    jsTrim (pre ++ l ++ post) = jsTrim l := by
  rw [List.append_assoc, jsTrim_ws_front hpre, jsTrim_ws_back hpost]

/-- Lowercasing does not move a whitespace character. -/
theorem toLower_ws_fix {c : Char} (h : c.isWhitespace = true) :
    c.toLower = c := by
  have hc : ((c = ' ' ∨ c = '\t') ∨ c = '\r') ∨ c = '\n' := by
    simpa [Char.isWhitespace] using h
  rcases hc with ((h | h) | h) | h <;> subst h <;> decide

/-- Lowercasing fixes a list of whitespace characters pointwise. -/
theorem map_toLower_ws_fix {l : List Char}
    (h : ∀ c ∈ l, c.isWhitespace = true) :
    l.map Char.toLower = l := by
  have := List.map_congr_left (l := l) (g := id)
    (fun a ha => toLower_ws_fix (h a ha))
  simpa using this

end Helpers

/-- The pre-save hook writes round(score / totalQuestions × 100) into
the percentage field whenever totalQuestions is positive. -/
theorem applyPreSaveHook_percentage (a : QuizAttemptRecord)
    (h : 0 < a.totalQuestions) :
    (applyPreSaveHook a).percentage
      = jsRound ((a.score : ℚ) / (a.totalQuestions : ℚ) * 100) := by
  simp [applyPreSaveHook, h]

section MCQHelpers

/-- The MCQ branch succeeds exactly when both sides parse to the same
integer. -/
theorem mcqCorrect_iff (ca ua : JSVal) :
    mcqCorrect ca ua = true ↔
      ∃ n : ℤ, jsParseInt (jsToString ca) = some n ∧
        jsParseInt (jsToString ua) = some n := by
  unfold mcqCorrect
  rcases h1 : jsParseInt (jsToString ca) with _ | a <;>
    rcases h2 : jsParseInt (jsToString ua) with _ | b <;> simp [h1, h2]
  exact eq_comm

/-- The MCQ branch is a function of the parsed integer of the submitted
value. -/
theorem mcqCorrect_congr (ca v w : JSVal)
    (h : jsParseInt (jsToString v) = jsParseInt (jsToString w)) :
    mcqCorrect ca v = mcqCorrect ca w := by
  unfold mcqCorrect
  rw [h]

end MCQHelpers

/-- Claim C4: a submitted response whose questionId matches no question
of the quiz contributes nothing: grading a response list equals grading
the sublist of matched responses, and every entry of the output list
carries a questionId that matches some question of the quiz. -/
theorem unmatched_responses_dropped (qs : List Question)
    (rs : List SubmittedResponse) :
    gradeResponses qs rs
        = gradeResponses qs
            (rs.filter (fun r => (qs.find? (fun q => q._id == r.questionId)).isSome))
      ∧ (gradeResponses qs rs).2.all
          (fun p => (qs.find? (fun q => q._id == p.questionId)).isSome) = true := by
  induction rs with
  | nil => exact ⟨rfl, rfl⟩
  | cons r rest ih =>
    rcases ih with ⟨ih1, ih2⟩
    constructor
    · rcases hf : qs.find? (fun q => q._id == r.questionId) with _ | q
      · simp only [gradeResponses, hf, List.filter_cons, Option.isSome_none,
          Bool.false_eq_true, if_false]
        exact ih1
      · simp only [gradeResponses, hf, List.filter_cons, Option.isSome_some, if_true]
        rw [ih1]
    · rcases hf : qs.find? (fun q => q._id == r.questionId) with _ | q
      · simp only [gradeResponses, hf]
        exact ih2
      · simp only [gradeResponses, hf, List.all_cons]
        rw [ih2]
        simp [hf]

/-- Claim C5: reconciliation is idempotent for an unchanged quiz:
running the getQuizAttemptById recomputation twice yields the same
attempt record, hence the same percentage and the same
totalPossibleScore, because the recomputation reads only the stored
score and the current question marks, neither of which it writes. -/
theorem reconcile_idempotent (qs : List Question) (a : QuizAttemptRecord) :
    reconcileAttempt qs (reconcileAttempt qs a) = reconcileAttempt qs a
      ∧ reconcileView qs (reconcileAttempt qs a) = reconcileView qs a := by
  constructor
  · rfl
  · rfl

/-- Claim C6: for an MCQ question, grading compares the two sides as
parsed integers — correctness holds exactly when both the stored and
the submitted answer parse to the same integer, grading is invariant
across submitted values with the same parsed integer, a non-numeric or
missing submitted answer grades incorrect, and the string form and the
number form of the stored index both grade correct. -/
theorem mcq_integer_comparison (q : Question) (hq : q.type = "MCQ")
    (v w : JSVal) :
    (isCorrectAnswer q v = true ↔
      ∃ n : ℤ, jsParseInt (jsToString q.correctAnswer) = some n ∧
        jsParseInt (jsToString v) = some n)
    ∧ (jsParseInt (jsToString v) = jsParseInt (jsToString w) →
        isCorrectAnswer q v = isCorrectAnswer q w)
    ∧ (jsParseInt (jsToString v) = none → isCorrectAnswer q v = false)
    ∧ isCorrectAnswer q JSVal.undef = false
    ∧ isCorrectAnswer q JSVal.null = false
    ∧ (q.correctAnswer = JSVal.num 2 →
        isCorrectAnswer q (JSVal.str "2") = true
          ∧ isCorrectAnswer q (JSVal.num 2) = true) := by
  have hic : ∀ u : JSVal, isCorrectAnswer q u = mcqCorrect q.correctAnswer u := by
    intro u
    unfold isCorrectAnswer
    rw [hq]
    simp
  refine ⟨?_, ?_, ?_, ?_, ?_, ?_⟩
  · rw [hic]
    exact mcqCorrect_iff q.correctAnswer v
  · intro h
    rw [hic, hic]
    exact mcqCorrect_congr q.correctAnswer v w h
  · intro h
    rw [hic]
    unfold mcqCorrect
    rw [h]
    rcases jsParseInt (jsToString q.correctAnswer) with _ | a <;> rfl
  · rw [hic]
    unfold mcqCorrect
    have : jsParseInt (jsToString JSVal.undef) = none := by decide
    rw [this]
    rcases jsParseInt (jsToString q.correctAnswer) with _ | a <;> rfl
  · rw [hic]
    unfold mcqCorrect
    have : jsParseInt (jsToString JSVal.null) = none := by decide
    rw [this]
    rcases jsParseInt (jsToString q.correctAnswer) with _ | a <;> rfl
  · intro hca
    rw [hic, hic, hca]
    constructor <;> decide

/-- Closed instance of the C6 theorem at the example MCQ question with
answer index 2 and the submitted string form of the index. -/
theorem mcq_integer_comparison_witness :
    isCorrectAnswer exMcqQ (JSVal.str "2") = true :=
  ((mcq_integer_comparison exMcqQ rfl (JSVal.str "2") (JSVal.str "2")).2.2.2.2.2
    rfl).1

/-- Claim C7: for a Fill question, grading normalizes both sides by
stringify, lowercase and trim before comparing, so a submitted string
graded after adding leading or trailing whitespace or changing letter
case grades the same as the plain form, and a null or missing
submitted answer grades incorrect. -/
theorem fill_whitespace_case_invariant (q : Question) (hq : q.type = "Fill")
    (s t : String) (pre post : List Char)
    (hpre : ∀ c ∈ pre, c.isWhitespace = true)
    (hpost : ∀ c ∈ post, c.isWhitespace = true)
    (hcase : s.data.map Char.toLower = t.data.map Char.toLower) :
    isCorrectAnswer q (JSVal.str (String.mk (pre ++ s.data ++ post)))
        = isCorrectAnswer q (JSVal.str t)
      ∧ isCorrectAnswer q JSVal.null = false
      ∧ isCorrectAnswer q JSVal.undef = false := by
  have hic : ∀ u : JSVal, isCorrectAnswer q u = fillCorrect q.correctAnswer u := by
    intro u
    unfold isCorrectAnswer
    rw [hq]
    simp
  have hnorm : jsNormalize (String.mk (pre ++ s.data ++ post)) = jsNormalize t := by
    unfold jsNormalize
    show jsTrim ((pre ++ s.data ++ post).map Char.toLower)
        = jsTrim (t.data.map Char.toLower)
    rw [List.map_append, List.map_append, map_toLower_ws_fix hpre,
        map_toLower_ws_fix hpost, jsTrim_ws_both hpre hpost, hcase]
  refine ⟨?_, ?_, ?_⟩
  · rw [hic, hic]
    by_cases hf : jsFalsy q.correctAnswer
    · simp [fillCorrect, hf]
    · simp only [fillCorrect, hf, Bool.false_or]
      simp only [jsToString, hnorm]
      simp
  · rw [hic]
    simp [fillCorrect]
  · rw [hic]
    simp [fillCorrect]

/-- Closed instance of the C7 theorem at the example Fill question: the
uppercased, whitespace-padded submission grades the same as the plain
lowercase one. -/
theorem fill_whitespace_case_invariant_witness :
    isCorrectAnswer exFillQ (JSVal.str (String.mk ([' '] ++ "PARIS".data ++ [' ', ' '])))
      = isCorrectAnswer exFillQ (JSVal.str "paris") :=
  (fill_whitespace_case_invariant exFillQ rfl "PARIS" "paris" [' '] [' ', ' ']
    (by decide) (by decide) (by decide)).1

/-- Claim C1 (amended): the submission endpoint emits
percentage = round(score / totalMarks × 100) whenever totalMarks is
non-zero; when totalMarks is 0 the division yields a non-finite number
and no numeric percentage — in particular not 0 — is emitted. -/
theorem submit_percentage_formula (qs : List Question)
    (rs : List SubmittedResponse) :
    submitEmittedPercentage qs rs
      = (if quizTotalMarks qs = 0 then none
         else some (jsRound (((gradeResponses qs rs).1 : ℚ)
             / (quizTotalMarks qs : ℚ) * 100))) := by
  unfold submitEmittedPercentage jsDiv
  by_cases h : quizTotalMarks qs = 0
  · simp [h]
  · have h2 : (quizTotalMarks qs : ℚ) ≠ 0 := Int.cast_ne_zero.mpr h
    simp [h, h2]

/-- Claim C1 counterexample: on a quiz with no questions totalMarks is
0 and the emitted percentage is the non-finite result of 0 / 0, not
the number 0 the claim promises. -/
theorem submit_percentage_zero_marks_cex :
    quizTotalMarks [] = 0 ∧ submitEmittedPercentage [] [] ≠ some 0 := by
  constructor
  · rfl
  · simp +decide [submitEmittedPercentage, quizTotalMarks, gradeResponses, jsDiv]

/-- Claim C2 (amended): the attempt record persisted by
submitQuizAttempt carries the grading score and the quiz question
count, and its stored percentage equals
round(score / totalQuestions × 100) — the pre-save hook derives the
percentage from totalQuestions, not from totalMarks. -/
theorem saved_percentage_uses_totalQuestions (quizId userId : String)
    (qs : List Question) (rs : List SubmittedResponse) (t : Int)
    (h : qs ≠ []) :
    (savedAttempt quizId userId qs rs t).percentage
        = jsRound (((gradeResponses qs rs).1 : ℚ) / (qs.length : ℚ) * 100)
      ∧ (savedAttempt quizId userId qs rs t).score = (gradeResponses qs rs).1
      ∧ (savedAttempt quizId userId qs rs t).totalQuestions = qs.length := by
  have hl : 0 < qs.length := List.length_pos.mpr h
  unfold savedAttempt applyPreSaveHook mkAttemptData
  simp [hl]

/-- Closed instance of the C2 amended theorem at the 2-mark
one-question quiz. -/
theorem saved_percentage_uses_totalQuestions_witness :
    (savedAttempt "Q1" "U1" c2Quiz c2Resp 0).percentage
      = jsRound (((gradeResponses c2Quiz c2Resp).1 : ℚ) / (c2Quiz.length : ℚ) * 100) :=
  (saved_percentage_uses_totalQuestions "Q1" "U1" c2Quiz c2Resp 0 (by decide)).1

/-- Claim C2 counterexample: on a one-question quiz whose question is
worth 2 marks, a correct submission is stored with score 2, totalMarks
2 and percentage 200, while round(score / totalMarks × 100) is 100 —
the stored percentage is not re-derivable from score and
totalMarks. -/
theorem saved_percentage_totalMarks_cex :
    (savedAttempt "Q1" "U1" c2Quiz c2Resp 0).score = 2
      ∧ (savedAttempt "Q1" "U1" c2Quiz c2Resp 0).totalMarks = 2
      ∧ (savedAttempt "Q1" "U1" c2Quiz c2Resp 0).percentage = 200
      ∧ jsRound (((savedAttempt "Q1" "U1" c2Quiz c2Resp 0).score : ℚ)
          / ((savedAttempt "Q1" "U1" c2Quiz c2Resp 0).totalMarks : ℚ) * 100) = 100
      ∧ (savedAttempt "Q1" "U1" c2Quiz c2Resp 0).percentage
          ≠ jsRound (((savedAttempt "Q1" "U1" c2Quiz c2Resp 0).score : ℚ)
              / ((savedAttempt "Q1" "U1" c2Quiz c2Resp 0).totalMarks : ℚ) * 100) := by
  have hsc : (savedAttempt "Q1" "U1" c2Quiz c2Resp 0).score = 2 := by decide
  have htm : (savedAttempt "Q1" "U1" c2Quiz c2Resp 0).totalMarks = 2 := by decide
  have hs2 : (mkAttemptData "Q1" "U1" c2Quiz c2Resp 0).score = 2 := by decide
  have hq1 : (mkAttemptData "Q1" "U1" c2Quiz c2Resp 0).totalQuestions = 1 := by decide
  have hpc : (savedAttempt "Q1" "U1" c2Quiz c2Resp 0).percentage = 200 := by
    unfold savedAttempt
    rw [applyPreSaveHook_percentage _ (by decide), hs2, hq1]
    norm_num [jsRound]
  refine ⟨hsc, htm, hpc, ?_, ?_⟩
  · rw [hsc, htm]
    norm_num [jsRound]
  · rw [hpc, hsc, htm]
    norm_num [jsRound]

/-- Claim C3: on a database holding one quiz and one attempt whose
quiz path references it, the quizController delete handler removes the
quiz but leaves the referencing attempt untouched, because its
deleteMany filter names the path quizId, which no attempt document
carries; the adminController handler, filtering on the schema path
quiz, removes both. -/
theorem deleteQuiz_quizId_filter_eval :
    (deleteQuizUserCtrl c3DB "Q1").quizzes = []
      ∧ (deleteQuizUserCtrl c3DB "Q1").attempts
          = [{ _id := "A1", user := "U1", quiz := "Q1" }]
      ∧ (deleteQuizAdminCtrl c3DB "Q1").quizzes = []
      ∧ (deleteQuizAdminCtrl c3DB "Q1").attempts = [] := by
  refine ⟨by decide, by decide, by decide, by decide⟩

/-- Claim C8: the pre-save rewrite of a legacy TrueFalse question sets
options to True and False and maps the boolean answer to index 0, but
leaves the type tag TrueFalse: the rewritten question fails the schema
validation (the type enum admits only MCQ and Fill) and the grading
switch scores every submitted answer incorrect, even index 0, which
the MCQ comparison itself would accept. -/
theorem truefalse_rewrite_eval :
    (fixQuestionPreSave c8TFQ).type = "TrueFalse"
      ∧ (fixQuestionPreSave c8TFQ).options = some ["True", "False"]
      ∧ (fixQuestionPreSave c8TFQ).correctAnswer = JSVal.num 0
      ∧ validQuestion (fixQuestionPreSave c8TFQ) = false
      ∧ (∀ v : JSVal, isCorrectAnswer (fixQuestionPreSave c8TFQ) v = false)
      ∧ mcqCorrect (fixQuestionPreSave c8TFQ).correctAnswer (JSVal.num 0) = true := by
  refine ⟨by decide, by decide, by decide, by decide, ?_, by decide⟩
  intro v
  have ht : (fixQuestionPreSave c8TFQ).type = "TrueFalse" := by decide
  unfold isCorrectAnswer
  rw [ht, if_neg (by decide), if_neg (by decide)]

/-- Claim C9: the subject grouping of getUserAnalytics throws — and so
fails the whole aggregation — as soon as one attempt carries an
unresolved quiz reference, instead of excluding that attempt; with
every reference resolved it produces the per-subject buckets. -/
theorem analytics_unresolved_quiz_eval :
    subjectGrouping [{ quizId := none, score := 5, percentage := some 50 }]
        = .error "TypeError: cannot read subject of a missing quiz reference"
      ∧ subjectGrouping
          [{ quizId := some { _id := "Q1", title := "T", subject := "Math" },
             score := 5, percentage := some 50 },
           { quizId := none, score := 3, percentage := some 30 }]
        = .error "TypeError: cannot read subject of a missing quiz reference"
      ∧ subjectGrouping
          [{ quizId := some { _id := "Q1", title := "T", subject := "Math" },
             score := 5, percentage := some 50 }]
        = .ok [("Math", { attempts := 1, totalScore := some 50 })] := by
  refine ⟨rfl, rfl, rfl⟩

/-- Claim C10: grading does not deduplicate by questionId: submitting
the correct answer twice for the single 1-mark question yields score
2 over totalMarks 1, two output entries, and an emitted percentage of
200. -/
theorem duplicate_responses_double_count :
    (gradeResponses c10Quiz c10Resp).1 = 2
      ∧ quizTotalMarks c10Quiz = 1
      ∧ (gradeResponses c10Quiz c10Resp).2.length = 2
      ∧ quizTotalMarks c10Quiz < (gradeResponses c10Quiz c10Resp).1
      ∧ submitEmittedPercentage c10Quiz c10Resp = some 200
      ∧ (100 : ℤ) < 200 := by
  refine ⟨by decide, by decide, by decide, by decide, ?_, by decide⟩
  have h1 : (gradeResponses c10Quiz c10Resp).1 = 2 := by decide
  have h2 : quizTotalMarks c10Quiz = 1 := by decide
  unfold submitEmittedPercentage jsDiv
  rw [h1, h2]
  norm_num [jsRound]

end QuizApp

